import Mathlib

/-!
Shallow embedding of `mesonbuild/mcompile.py`, the backend-agnostic
`meson compile` entry point, together with proofs about its behavior.

The Python module reads the configured backend from
`<builddir>/meson-info/intro-buildoptions.json`, resolves a build driver
(a ninja-family runner, or `msbuild` for `vs*` backends), synthesizes the
driver's argument vector from the normalized options, spawns the driver
and relays its exit status.

The embedding makes all external effects explicit:
  * `Env` packages the observable state of the outside world that the
    module consults (filesystem facts, the `NINJA` environment variable,
    `shutil.which` probes, glob results, and the child-process exit code
    as a function of the spawned command line);
  * `Event` records the effects the module performs, in order (file
    reads, log/warning messages, the process spawn);
  * errors raised by the Python code become `Except.error` values, with
    `MError` distinguishing `MesonException` from the `assert` statement's
    `AssertionError`.
-/

namespace Mcompile

/-- One option descriptor from `intro-buildoptions.json`: the Python code
reads `option['name']` and `option['value']` of each list entry. -/
structure BOption where
  name : String
  value : String
  deriving Repr, DecidableEq

/-- Errors raised by `mcompile.py`: `MesonException` with its message, the
`assert` statement's `AssertionError` with its message, and a JSON parse
failure from `json.load`. -/
inductive MError where
  | mesonError (msg : String)
  | assertionError (msg : String)
  | jsonDecodeError
  deriving Repr, DecidableEq

/-- Observable effects of a run, in program order. -/
inductive Event where
  | fileRead (name : String)
  | logMsg (msg : String)
  | warning (msg : String)
  | spawn (cmd : List String)
  deriving Repr, DecidableEq

/-- The outside world as `mcompile.py` observes it during one invocation. -/
structure Env where
  /-- Fact: `options.builddir.exists()` -/
  bdirExists : Bool
  /-- Fact: `options.builddir.is_dir()` -/
  bdirIsDir : Bool
  /-- Value of `str(options.builddir.resolve())` -/
  bdirResolved : String
  /-- Value of `options.builddir.as_posix()` -/
  bdirPosix : String
  /-- Fact: `(builddir / 'meson-info' / 'intro-buildoptions.json').exists()` -/
  introExists : Bool
  /-- result of `json.load` on the introspection file; `none` models a
  parse failure raised by `json.load`. -/
  introSchema : Option (List BOption)
  /-- Value of `os.environ.get('NINJA')`: `none` when the variable is unset. -/
  ninjaEnvVar : Option String
  /-- Fact: `shutil.which('ninja')` succeeds -/
  whichNinja : Bool
  /-- Fact: `shutil.which('samu')` succeeds -/
  whichSamu : Bool
  /-- Value of `list(builddir.glob('*.sln'))` -/
  slns : List String
  /-- Value of `str(p.resolve())` for a globbed solution path `p` -/
  resolvePath : String → String
  /-- Result of `Popen_safe(cmd, ...)` followed by `p.returncode`: the child's exit
  status as a function of the spawned command line. -/
  spawnReturn : List String → Int

/-- Python truthiness of `os.environ.get(...)`: `None` and the empty
string are falsy, every other string is truthy. -/
def pyTruthy : Option String → Bool
  | none => false
  | some s => !(s == "")

/-- Embedding of Python `s.startswith(p)`: `p`'s character sequence is a
prefix of `s`'s. -/
def startswith (s p : String) : Bool := List.isPrefixOf p.data s.data

/-- Embedding of `get_backend_from_introspect` (mcompile.py lines 31-44).
Returns the effect trace alongside the result: the introspection file is
read (opened) exactly when it exists. -/
def get_backend_from_introspect (env : Env) : List Event × Except MError String :=
  if env.introExists = false then
    ([], Except.error (MError.mesonError
      "`intro-buildoptions.json` is missing! Directory is not configured yet?"))
  else
    match env.introSchema with
    | none => ([Event.fileRead "intro-buildoptions.json"], Except.error MError.jsonDecodeError)
    | some schema =>
      ([Event.fileRead "intro-buildoptions.json"],
        match schema.find? (fun o => o.name == "backend") with
        | some o => Except.ok o.value
        | none => Except.error (MError.mesonError
            "`intro-buildoptions.json` is missing `backend` option!"))

/-- The normalized options consumed by `run` (the four values produced by
`add_arguments`): `--jobs`, `--load-average`, `--clean`.  The build
directory lives in `Env`. -/
structure CompileOptions where
  jobs : Int
  load_average : Int
  clean : Bool
  deriving Repr, DecidableEq

/-- Embedding of the ninja-runner resolution (mcompile.py lines 88-93):

    runner = os.environ.get('NINJA')
    if not runner:
        if shutil.which('ninja'):
            runner = 'ninja'
        elif shutil.which('samu'):
            runner = 'samu'

Note that when `NINJA` is set to the empty string and neither probe
succeeds, the result is `some ""` (the variable's falsy value survives),
not `none`. -/
def resolve_runner (env : Env) : Option String :=
  let runner := env.ninjaEnvVar
  if pyTruthy runner then runner
  else if env.whichNinja then some "ninja"
  else if env.whichSamu then some "samu"
  else runner

/-- Embedding of the ninja-family command synthesis (mcompile.py
lines 99-108). -/
def ninja_cmd (runner : String) (posix : String) (o : CompileOptions) : List String :=
  let cmd := [runner, "-C", posix]
  let cmd := if o.jobs > 0 then cmd ++ ["-j", toString o.jobs] else cmd
  let cmd := if o.load_average > 0 then cmd ++ ["-l", toString o.load_average] else cmd
  if o.clean then cmd ++ ["clean"] else cmd

/-- Embedding of the msbuild command synthesis (mcompile.py
lines 115-126), given `str(sln.resolve())`. -/
def vs_cmd (slnResolved : String) (o : CompileOptions) : List String :=
  let cmd := ["msbuild", slnResolved]
  let cmd := if o.jobs > 0 then cmd ++ ["-m" ++ toString o.jobs] else cmd ++ ["-m"]
  if o.clean then cmd ++ ["/t:Clean"] else cmd

/-- Embedding of `run` (mcompile.py lines 77-135).  Returns the ordered
effect trace together with either the raised error or the relayed child
exit status. -/
def run (options : CompileOptions) (env : Env) : List Event × Except MError Int :=
  if env.bdirExists = false then
    ([], Except.error (MError.mesonError
      ("Path to builddir " ++ env.bdirResolved ++ " does not exist!")))
  else if env.bdirIsDir = false then
    ([], Except.error (MError.mesonError "builddir path should be a directory."))
  else
    match (get_backend_from_introspect env).2 with
    | Except.error e => ((get_backend_from_introspect env).1, Except.error e)
    | Except.ok backend =>
      if backend = "ninja" then
        match resolve_runner env with
        | none => ((get_backend_from_introspect env).1,
            Except.error (MError.mesonError "Cannot find either ninja or samu."))
        | some runner =>
          ((get_backend_from_introspect env).1 ++
            [Event.logMsg ("Found runner: " ++ runner),
             Event.spawn (ninja_cmd runner env.bdirPosix options)],
           Except.ok (env.spawnReturn (ninja_cmd runner env.bdirPosix options)))
      else if startswith backend "vs" then
        match env.slns with
        | [sln] =>
          ((if options.load_average ≠ 0
              then (get_backend_from_introspect env).1 ++
                [Event.warning "Msbuild does not have a load-average switch, ignoring."]
              else (get_backend_from_introspect env).1) ++
            [Event.spawn (vs_cmd (env.resolvePath sln) options)],
           Except.ok (env.spawnReturn (vs_cmd (env.resolvePath sln) options)))
        | _ => ((get_backend_from_introspect env).1,
            Except.error (MError.assertionError "More than one solution in a project?"))
      else
        ((get_backend_from_introspect env).1, Except.error (MError.mesonError
          ("Backend `" ++ backend ++ "` is not yet supported by `compile`. Use generated project files directly instead.")))

/-- The commands spawned during a trace, in order. -/
def spawnedCmds (evs : List Event) : List (List String) :=
  evs.filterMap (fun e => match e with | Event.spawn c => some c | _ => none)

/-! ### Concrete environments used by witnesses and counterexamples -/

/-- A configured ninja build tree: `NINJA` unset, `ninja` on the path. -/
def envNinja : Env where
  bdirExists := true
  bdirIsDir := true
  bdirResolved := "/work/build"
  bdirPosix := "/work/build"
  introExists := true
  introSchema := some [⟨"buildtype", "debug"⟩, ⟨"backend", "ninja"⟩]
  ninjaEnvVar := none
  whichNinja := true
  whichSamu := false
  slns := []
  resolvePath := fun s => s
  spawnReturn := fun _ => 0

/-- A ninja build tree where `NINJA` is set to the empty string and
neither `ninja` nor `samu` is on the path. -/
def envNinjaEmptyVar : Env :=
  { envNinja with ninjaEnvVar := some "", whichNinja := false, whichSamu := false }

/-- A ninja build tree where `NINJA` names a runner that does not exist
on the path, while `ninja` itself is also present. -/
def envNinjaOverride : Env :=
  { envNinja with ninjaEnvVar := some "custom-runner" }

/-- A configured vs2019 build tree with exactly one solution file. -/
def envVs : Env :=
  { envNinja with
      introSchema := some [⟨"backend", "vs2019"⟩]
      slns := ["proj.sln"]
      resolvePath := fun s => "/work/build/" ++ s }

/-- A vs2019 build tree with two solution files. -/
def envVsTwoSlns : Env :=
  { envVs with slns := ["a.sln", "b.sln"] }

/-- A build tree whose backend is `xcode`. -/
def envXcode : Env :=
  { envNinja with introSchema := some [⟨"backend", "xcode"⟩] }

/-- A build directory path that does not exist. -/
def envNoDir : Env :=
  { envNinja with bdirExists := false }

/-- A build directory path that exists but is a regular file. -/
def envNotADir : Env :=
  { envNinja with bdirIsDir := false }

/-- An existing build directory that was never configured: no
introspection file. -/
def envUnconfigured : Env :=
  { envNinja with introExists := false }

/-- A build tree whose introspection file parses but holds no `backend`
descriptor. -/
def envNoBackendKey : Env :=
  { envNinja with introSchema := some [⟨"buildtype", "debug"⟩] }

/-- Default options: `jobs = 0`, `load_average = 0`, `clean = false`. -/
def optDefault : CompileOptions where
  jobs := 0
  load_average := 0
  clean := false

/-- Options of `meson compile -j 4`. -/
def optJ4 : CompileOptions where
  jobs := 4
  load_average := 0
  clean := false

/-- Options of `meson compile --clean`. -/
def optClean : CompileOptions where
  jobs := 0
  load_average := 0
  clean := true

/-- Options of `meson compile -j 2 -l 3 --clean`. -/
def optFull : CompileOptions where
  jobs := 2
  load_average := 3
  clean := true

example : run optJ4 envNinja =
    ([Event.fileRead "intro-buildoptions.json",
      Event.logMsg "Found runner: ninja",
      Event.spawn ["ninja", "-C", "/work/build", "-j", "4"]],
     Except.ok 0) := rfl

example : run optFull envNinja =
    ([Event.fileRead "intro-buildoptions.json",
      Event.logMsg "Found runner: ninja",
      Event.spawn ["ninja", "-C", "/work/build", "-j", "2", "-l", "3", "clean"]],
     Except.ok 0) := rfl

example : run optDefault envVs =
    ([Event.fileRead "intro-buildoptions.json",
      Event.spawn ["msbuild", "/work/build/proj.sln", "-m"]],
     Except.ok 0) := rfl

example : run optFull envVs =
    ([Event.fileRead "intro-buildoptions.json",
      Event.warning "Msbuild does not have a load-average switch, ignoring.",
      Event.spawn ["msbuild", "/work/build/proj.sln", "-m2", "/t:Clean"]],
     Except.ok 0) := rfl

example : run optDefault envNinjaEmptyVar =
    ([Event.fileRead "intro-buildoptions.json",
      Event.logMsg "Found runner: ",
      Event.spawn ["", "-C", "/work/build"]],
     Except.ok 0) := rfl

/-! ### Branch characterization lemmas -/

/-- The configuration reader performs no spawn: its trace is empty or a
single file read. -/
theorem spawnedCmds_get_backend (env : Env) :
    spawnedCmds (get_backend_from_introspect env).1 = [] := by
  unfold get_backend_from_introspect
  cases h : env.introExists with
  | false => simp [spawnedCmds]
  | true => cases env.introSchema <;> simp [spawnedCmds, List.filterMap]

/-- Two strings whose character sequences start with different characters
are different, even after appending to the first. -/
theorem append_ne_of_data_head (p s q : String) (c c' : Char) (tp tq : List Char)
    (hp : p.data = c :: tp) (hq : q.data = c' :: tq) (hne : c ≠ c') : p ++ s ≠ q := by
  intro h
  have hd : (p ++ s).data = q.data := congrArg String.data h
  rw [String.data_append, hp, hq, List.cons_append] at hd
  exact hne (List.head_eq_of_cons_eq hd)

/-- Shape of `run` on a configured ninja tree with a resolved runner: logs the
runner, spawns the ninja-family command and relays its exit status. -/
theorem run_ninja_eq (o : CompileOptions) (env : Env) (r : String)
    (hex : env.bdirExists = true) (hdir : env.bdirIsDir = true)
    (hb : (get_backend_from_introspect env).2 = Except.ok "ninja")
    (hr : resolve_runner env = some r) :
    run o env =
      ((get_backend_from_introspect env).1 ++
        [Event.logMsg ("Found runner: " ++ r),
         Event.spawn (ninja_cmd r env.bdirPosix o)],
       Except.ok (env.spawnReturn (ninja_cmd r env.bdirPosix o))) := by
  have hg : get_backend_from_introspect env =
      ((get_backend_from_introspect env).1, Except.ok "ninja") := by
    rw [← hb]
  unfold run
  rw [hex, hdir, hg, hr]
  rfl

/-- Shape of `run` on a configured `vs*` tree with exactly one solution file:
optionally warns about `load_average`, spawns the msbuild command and
relays its exit status. -/
theorem run_vs_eq (o : CompileOptions) (env : Env) (b sln : String)
    (hex : env.bdirExists = true) (hdir : env.bdirIsDir = true)
    (hb : (get_backend_from_introspect env).2 = Except.ok b)
    (hvs : startswith b "vs" = true)
    (hsln : env.slns = [sln]) :
    run o env =
      ((if o.load_average ≠ 0
          then (get_backend_from_introspect env).1 ++
            [Event.warning "Msbuild does not have a load-average switch, ignoring."]
          else (get_backend_from_introspect env).1) ++
        [Event.spawn (vs_cmd (env.resolvePath sln) o)],
       Except.ok (env.spawnReturn (vs_cmd (env.resolvePath sln) o))) := by
  have hn : ¬(b = "ninja") := by
    rintro rfl
    exact absurd hvs (by decide)
  have hg : get_backend_from_introspect env =
      ((get_backend_from_introspect env).1, Except.ok b) := by
    rw [← hb]
  unfold run
  rw [hex, hdir, hg, hsln]
  simp [hn, hvs]

/-- Lemma: `run` propagates any error of the configuration reader. -/
theorem run_reader_error_eq (o : CompileOptions) (env : Env) (e : MError)
    (hex : env.bdirExists = true) (hdir : env.bdirIsDir = true)
    (hb : (get_backend_from_introspect env).2 = Except.error e) :
    run o env = ((get_backend_from_introspect env).1, Except.error e) := by
  have hg : get_backend_from_introspect env =
      ((get_backend_from_introspect env).1, Except.error e) := by
    rw [← hb]
  unfold run
  rw [hex, hdir, hg]
  rfl

/-- Shape of `run` on a ninja tree where no runner resolves: the driver-not-found
error. -/
theorem run_ninja_no_runner_eq (o : CompileOptions) (env : Env)
    (hex : env.bdirExists = true) (hdir : env.bdirIsDir = true)
    (hb : (get_backend_from_introspect env).2 = Except.ok "ninja")
    (hr : resolve_runner env = none) :
    run o env = ((get_backend_from_introspect env).1,
      Except.error (MError.mesonError "Cannot find either ninja or samu.")) := by
  have hg : get_backend_from_introspect env =
      ((get_backend_from_introspect env).1, Except.ok "ninja") := by
    rw [← hb]
  unfold run
  rw [hex, hdir, hg, hr]
  rfl

/-- Shape of `run` on a `vs*` tree whose solution glob has zero or several matches:
the assertion fires. -/
theorem run_vs_assert_eq (o : CompileOptions) (env : Env) (b : String)
    (hex : env.bdirExists = true) (hdir : env.bdirIsDir = true)
    (hb : (get_backend_from_introspect env).2 = Except.ok b)
    (hvs : startswith b "vs" = true)
    (hsln : env.slns.length ≠ 1) :
    run o env = ((get_backend_from_introspect env).1,
      Except.error (MError.assertionError "More than one solution in a project?")) := by
  have hn : ¬(b = "ninja") := by
    rintro rfl
    exact absurd hvs (by decide)
  have hg : get_backend_from_introspect env =
      ((get_backend_from_introspect env).1, Except.ok b) := by
    rw [← hb]
  unfold run
  rw [hex, hdir, hg]
  rcases hs : env.slns with _ | ⟨a, _ | ⟨c, l⟩⟩
  · simp [hn, hvs]
  · exact absurd (by simp [hs]) hsln
  · simp [hn, hvs]

/-- Shape of `run` on an unsupported backend: the unsupported-backend error. -/
theorem run_unsupported_eq (o : CompileOptions) (env : Env) (b : String)
    (hex : env.bdirExists = true) (hdir : env.bdirIsDir = true)
    (hb : (get_backend_from_introspect env).2 = Except.ok b)
    (hn : b ≠ "ninja") (hvs : startswith b "vs" = false) :
    run o env = ((get_backend_from_introspect env).1,
      Except.error (MError.mesonError
        ("Backend `" ++ b ++ "` is not yet supported by `compile`. Use generated project files directly instead."))) := by
  have hg : get_backend_from_introspect env =
      ((get_backend_from_introspect env).1, Except.ok b) := by
    rw [← hb]
  unfold run
  rw [hex, hdir, hg]
  simp [hn, hvs]

/-- The only errors the configuration reader can produce. -/
theorem get_backend_error_cases (env : Env) (e : MError)
    (h : (get_backend_from_introspect env).2 = Except.error e) :
    e = MError.mesonError "`intro-buildoptions.json` is missing! Directory is not configured yet?"
    ∨ e = MError.jsonDecodeError
    ∨ e = MError.mesonError "`intro-buildoptions.json` is missing `backend` option!" := by
  unfold get_backend_from_introspect at h
  rcases hi : env.introExists with _ | _ <;> rw [hi] at h
  · simp at h
    exact Or.inl h.symm
  · rcases hs : env.introSchema with _ | ⟨schema⟩ <;> rw [hs] at h <;> simp at h
    · exact Or.inr (Or.inl h.symm)
    · rcases hf : schema.find? (fun o => o.name == "backend") with _ | ⟨opt⟩ <;>
        rw [hf] at h <;> simp at h
      exact Or.inr (Or.inr h.symm)

example : run optDefault envXcode =
    ([Event.fileRead "intro-buildoptions.json"],
     Except.error (MError.mesonError
       "Backend `xcode` is not yet supported by `compile`. Use generated project files directly instead.")) := rfl

/-- Lemma: `spawnedCmds` distributes over trace concatenation. -/
theorem spawnedCmds_append (l1 l2 : List Event) :
    spawnedCmds (l1 ++ l2) = spawnedCmds l1 ++ spawnedCmds l2 := by
  simp [spawnedCmds]

/-- A successful ninja-family run spawns exactly the ninja command. -/
theorem spawnedCmds_run_ninja (o : CompileOptions) (env : Env) (r : String)
    (hex : env.bdirExists = true) (hdir : env.bdirIsDir = true)
    (hb : (get_backend_from_introspect env).2 = Except.ok "ninja")
    (hr : resolve_runner env = some r) :
    spawnedCmds (run o env).1 = [ninja_cmd r env.bdirPosix o] := by
  rw [run_ninja_eq o env r hex hdir hb hr]
  rw [show (((get_backend_from_introspect env).1 ++
      [Event.logMsg ("Found runner: " ++ r), Event.spawn (ninja_cmd r env.bdirPosix o)],
      Except.ok (env.spawnReturn (ninja_cmd r env.bdirPosix o))) :
        List Event × Except MError Int).1 =
      (get_backend_from_introspect env).1 ++
      [Event.logMsg ("Found runner: " ++ r), Event.spawn (ninja_cmd r env.bdirPosix o)] from rfl]
  rw [spawnedCmds_append, spawnedCmds_get_backend]
  rfl

/-- A successful vs-family run spawns exactly the msbuild command. -/
theorem spawnedCmds_run_vs (o : CompileOptions) (env : Env) (b sln : String)
    (hex : env.bdirExists = true) (hdir : env.bdirIsDir = true)
    (hb : (get_backend_from_introspect env).2 = Except.ok b)
    (hvs : startswith b "vs" = true)
    (hsln : env.slns = [sln]) :
    spawnedCmds (run o env).1 = [vs_cmd (env.resolvePath sln) o] := by
  rw [run_vs_eq o env b sln hex hdir hb hvs hsln]
  show spawnedCmds
      ((if o.load_average ≠ 0
          then (get_backend_from_introspect env).1 ++
            [Event.warning "Msbuild does not have a load-average switch, ignoring."]
          else (get_backend_from_introspect env).1) ++
        [Event.spawn (vs_cmd (env.resolvePath sln) o)]) =
      [vs_cmd (env.resolvePath sln) o]
  rw [spawnedCmds_append]
  have h1 : spawnedCmds
      (if o.load_average ≠ 0
        then (get_backend_from_introspect env).1 ++
          [Event.warning "Msbuild does not have a load-average switch, ignoring."]
        else (get_backend_from_introspect env).1) = [] := by
    split
    · rw [spawnedCmds_append, spawnedCmds_get_backend]
      rfl
    · exact spawnedCmds_get_backend env
  rw [h1]
  rfl

/-! ### The claims -/

/-- C1: for backend `ninja`, the synthesized argument vector is exactly
`[runner, "-C", buildDirAsPosixPath]`, followed by `["-j", jobs]` iff
`jobs > 0`, followed by `["-l", loadAverage]` iff `loadAverage > 0`,
followed by the bare token `"clean"` iff the clean flag is set; for
`jobs ≤ 0` and `loadAverage ≤ 0` the respective flags are absent
entirely. -/
theorem C1_ninja_argv (o : CompileOptions) (env : Env) (r : String)
    (hex : env.bdirExists = true) (hdir : env.bdirIsDir = true)
    (hb : (get_backend_from_introspect env).2 = Except.ok "ninja")
    (hr : resolve_runner env = some r) :
    spawnedCmds (run o env).1 = [ninja_cmd r env.bdirPosix o]
    ∧ ninja_cmd r env.bdirPosix o =
        [r, "-C", env.bdirPosix]
          ++ (if 0 < o.jobs then ["-j", toString o.jobs] else [])
          ++ (if 0 < o.load_average then ["-l", toString o.load_average] else [])
          ++ (if o.clean then ["clean"] else []) := by
  refine ⟨spawnedCmds_run_ninja o env r hex hdir hb hr, ?_⟩
  unfold ninja_cmd
  by_cases hj : 0 < o.jobs <;> by_cases hl : 0 < o.load_average <;>
    by_cases hc : o.clean <;> simp [hj, hl, hc]

/-- C1 witness: a concrete ninja tree with `jobs = 4`. -/
theorem C1_ninja_argv_witness :
    spawnedCmds (run optJ4 envNinja).1 = [ninja_cmd "ninja" envNinja.bdirPosix optJ4]
    ∧ ninja_cmd "ninja" envNinja.bdirPosix optJ4 =
        ["ninja", "-C", envNinja.bdirPosix]
          ++ (if 0 < optJ4.jobs then ["-j", toString optJ4.jobs] else [])
          ++ (if 0 < optJ4.load_average then ["-l", toString optJ4.load_average] else [])
          ++ (if optJ4.clean then ["clean"] else []) :=
  C1_ninja_argv optJ4 envNinja "ninja" rfl rfl rfl rfl

/-- C4: a successful `run` relays the spawned driver's exit status
unchanged: exactly one command is spawned, and the returned integer is the
child process's return code for that command. -/
theorem C4_exit_status_passthrough (o : CompileOptions) (env : Env) (n : Int)
    (h : (run o env).2 = Except.ok n) :
    ∃ cmd, spawnedCmds (run o env).1 = [cmd] ∧ n = env.spawnReturn cmd := by
  rcases hex : env.bdirExists with _ | _
  · unfold run at h
    rw [hex] at h
    simp at h
  · rcases hdir : env.bdirIsDir with _ | _
    · unfold run at h
      rw [hex, hdir] at h
      simp at h
    · rcases hgb : (get_backend_from_introspect env).2 with e | b
      · rw [run_reader_error_eq o env e hex hdir hgb] at h
        simp at h
      · by_cases hn : b = "ninja"
        · subst hn
          rcases hr : resolve_runner env with _ | r
          · rw [run_ninja_no_runner_eq o env hex hdir hgb hr] at h
            simp at h
          · refine ⟨ninja_cmd r env.bdirPosix o,
              spawnedCmds_run_ninja o env r hex hdir hgb hr, ?_⟩
            rw [run_ninja_eq o env r hex hdir hgb hr] at h
            simp at h
            exact h.symm
        · by_cases hvs : startswith b "vs" = true
          · rcases hs : env.slns with _ | ⟨a, _ | ⟨c, l⟩⟩
            · rw [run_vs_assert_eq o env b hex hdir hgb hvs (by simp [hs])] at h
              simp at h
            · refine ⟨vs_cmd (env.resolvePath a) o,
                spawnedCmds_run_vs o env b a hex hdir hgb hvs hs, ?_⟩
              rw [run_vs_eq o env b a hex hdir hgb hvs hs] at h
              simp at h
              exact h.symm
            · rw [run_vs_assert_eq o env b hex hdir hgb hvs (by simp [hs])] at h
              simp at h
          · have hvs' : startswith b "vs" = false := by
              rcases hh : startswith b "vs" with _ | _
              · rfl
              · exact absurd hh hvs
            rw [run_unsupported_eq o env b hex hdir hgb hn hvs'] at h
            simp at h

/-- C4 witness: a concrete successful ninja run returning status 0. -/
theorem C4_exit_status_passthrough_witness :
    ∃ cmd, spawnedCmds (run optJ4 envNinja).1 = [cmd]
      ∧ (0 : Int) = envNinja.spawnReturn cmd :=
  C4_exit_status_passthrough optJ4 envNinja 0 rfl

/-- The reader's result once the introspection file exists and parses:
a single file read, and the scan of the parsed list. -/
theorem get_backend_schema (env : Env) (schema : List BOption)
    (hex : env.introExists = true) (hs : env.introSchema = some schema) :
    get_backend_from_introspect env =
      ([Event.fileRead "intro-buildoptions.json"],
        match schema.find? (fun o => o.name == "backend") with
        | some o => Except.ok o.value
        | none => Except.error (MError.mesonError
            "`intro-buildoptions.json` is missing `backend` option!")) := by
  unfold get_backend_from_introspect
  rw [hex, hs]
  rfl

/-- C5: the configuration reader fails naming the missing introspection
file when it does not exist; fails naming the absent `backend` key when
the parsed list holds no descriptor named `backend`; otherwise it returns
the `value` of the first descriptor whose `name` is `backend`. -/
theorem C5_read_backend (env : Env) :
    (env.introExists = false →
      get_backend_from_introspect env =
        ([], Except.error (MError.mesonError
          "`intro-buildoptions.json` is missing! Directory is not configured yet?")))
    ∧ (∀ schema, env.introExists = true → env.introSchema = some schema →
        (∀ o ∈ schema, o.name ≠ "backend") →
        get_backend_from_introspect env =
          ([Event.fileRead "intro-buildoptions.json"],
           Except.error (MError.mesonError
             "`intro-buildoptions.json` is missing `backend` option!")))
    ∧ (∀ schema pre opt post, env.introExists = true → env.introSchema = some schema →
        schema = pre ++ opt :: post →
        (∀ p ∈ pre, p.name ≠ "backend") → opt.name = "backend" →
        get_backend_from_introspect env =
          ([Event.fileRead "intro-buildoptions.json"], Except.ok opt.value)) := by
  refine ⟨?_, ?_, ?_⟩
  · intro h
    unfold get_backend_from_introspect
    rw [h]
    rfl
  · intro schema hex hs hnone
    have hf : schema.find? (fun o => o.name == "backend") = none := by
      rw [List.find?_eq_none]
      intro x hx
      simpa using hnone x hx
    rw [get_backend_schema env schema hex hs, hf]
  · intro schema pre opt post hex hs hsplit hpre hopt
    have hfpre : pre.find? (fun o => o.name == "backend") = none := by
      rw [List.find?_eq_none]
      intro x hx
      simpa using hpre x hx
    have hfind : (pre ++ opt :: post).find? (fun o => o.name == "backend") = some opt := by
      rw [List.find?_append, hfpre, List.find?_cons_of_pos _ (by simpa using hopt)]
      rfl
    rw [get_backend_schema env schema hex hs, hsplit, hfind]

/-- Schema with several descriptors, two of them named `backend`. -/
def schemaMulti : List BOption :=
  [⟨"buildtype", "debug"⟩, ⟨"backend", "ninja"⟩, ⟨"backend", "vs2019"⟩]

/-- A build tree whose introspection data is `schemaMulti`. -/
def envMulti : Env := { envNinja with introSchema := some schemaMulti }

/-- C5 witness: unconfigured tree fails naming the file; a schema with two
`backend` descriptors yields the first one's value. -/
theorem C5_read_backend_witness :
    get_backend_from_introspect envUnconfigured =
      ([], Except.error (MError.mesonError
        "`intro-buildoptions.json` is missing! Directory is not configured yet?"))
    ∧ get_backend_from_introspect envMulti =
        ([Event.fileRead "intro-buildoptions.json"], Except.ok "ninja") := by
  refine ⟨(C5_read_backend envUnconfigured).1 rfl, ?_⟩
  exact (C5_read_backend envMulti).2.2 schemaMulti
    [⟨"buildtype", "debug"⟩] ⟨"backend", "ninja"⟩ [⟨"backend", "vs2019"⟩]
    rfl rfl rfl (by decide) rfl

/-- C6: `run` validates the build directory before any other work: a
nonexistent path and a non-directory path fail with two distinct messages,
and in both cases the effect trace is empty — no file is read and no
process is spawned. -/
theorem C6_builddir_validation (o : CompileOptions) (env : Env) :
    (env.bdirExists = false →
      run o env = ([], Except.error (MError.mesonError
        ("Path to builddir " ++ env.bdirResolved ++ " does not exist!"))))
    ∧ (env.bdirExists = true → env.bdirIsDir = false →
      run o env = ([], Except.error (MError.mesonError
        "builddir path should be a directory."))) := by
  constructor
  · intro h
    unfold run
    rw [h]
    rfl
  · intro h1 h2
    unfold run
    rw [h1, h2]
    rfl

/-- C6 witness: the two failure shapes at concrete environments. -/
theorem C6_builddir_validation_witness :
    run optDefault envNoDir = ([], Except.error (MError.mesonError
      "Path to builddir /work/build does not exist!"))
    ∧ run optDefault envNotADir = ([], Except.error (MError.mesonError
      "builddir path should be a directory.")) := by
  constructor
  · exact (C6_builddir_validation optDefault envNoDir).1 rfl
  · exact (C6_builddir_validation optDefault envNotADir).2 rfl rfl

/-- C7: for `vs*` backends exactly one solution file must match the glob:
with one match the run proceeds, passing the resolved solution path to the
build tool right after its name; with zero or several matches it fails as
an assertion (a defect class distinct from the user-facing
MesonException) before anything is spawned. -/
theorem C7_sln_invariant (o : CompileOptions) (env : Env) (b : String)
    (hex : env.bdirExists = true) (hdir : env.bdirIsDir = true)
    (hb : (get_backend_from_introspect env).2 = Except.ok b)
    (hvs : startswith b "vs" = true) :
    (env.slns.length ≠ 1 →
      (run o env).2 = Except.error (MError.assertionError "More than one solution in a project?")
      ∧ spawnedCmds (run o env).1 = [])
    ∧ (∀ sln, env.slns = [sln] →
      (run o env).2 = Except.ok (env.spawnReturn (vs_cmd (env.resolvePath sln) o))
      ∧ ∃ rest, vs_cmd (env.resolvePath sln) o =
          "msbuild" :: env.resolvePath sln :: rest) := by
  constructor
  · intro hlen
    rw [run_vs_assert_eq o env b hex hdir hb hvs hlen]
    exact ⟨rfl, spawnedCmds_get_backend env⟩
  · intro sln hsln
    constructor
    · rw [run_vs_eq o env b sln hex hdir hb hvs hsln]
    · refine ⟨(if 0 < o.jobs then ["-m" ++ toString o.jobs] else ["-m"]) ++
        (if o.clean then ["/t:Clean"] else []), ?_⟩
      unfold vs_cmd
      by_cases hj : 0 < o.jobs <;> by_cases hc : o.clean <;> simp [hj, hc]

/-- C7 witness: two solutions trigger the assertion; one solution
resolves and is passed to msbuild. -/
theorem C7_sln_invariant_witness :
    ((run optDefault envVsTwoSlns).2 =
        Except.error (MError.assertionError "More than one solution in a project?")
      ∧ spawnedCmds (run optDefault envVsTwoSlns).1 = [])
    ∧ ((run optDefault envVs).2 =
        Except.ok (envVs.spawnReturn (vs_cmd (envVs.resolvePath "proj.sln") optDefault))
      ∧ ∃ rest, vs_cmd (envVs.resolvePath "proj.sln") optDefault =
          "msbuild" :: envVs.resolvePath "proj.sln" :: rest) := by
  constructor
  · exact (C7_sln_invariant optDefault envVsTwoSlns "vs2019" rfl rfl rfl rfl).1 (by decide)
  · exact (C7_sln_invariant optDefault envVs "vs2019" rfl rfl rfl rfl).2 "proj.sln" rfl

/-- C8: any backend identifier that is neither `ninja` nor `vs`-prefixed
fails with the unsupported-backend message naming the backend, and no
process is spawned. -/
theorem C8_unsupported_backend (o : CompileOptions) (env : Env) (b : String)
    (hex : env.bdirExists = true) (hdir : env.bdirIsDir = true)
    (hb : (get_backend_from_introspect env).2 = Except.ok b)
    (hn : b ≠ "ninja") (hvs : startswith b "vs" = false) :
    (run o env).2 = Except.error (MError.mesonError
      ("Backend `" ++ b ++ "` is not yet supported by `compile`. Use generated project files directly instead."))
    ∧ spawnedCmds (run o env).1 = [] := by
  rw [run_unsupported_eq o env b hex hdir hb hn hvs]
  exact ⟨rfl, spawnedCmds_get_backend env⟩

/-- C8 witness: an `xcode` tree yields the unsupported-backend error and
spawns nothing. -/
theorem C8_unsupported_backend_witness :
    (run optDefault envXcode).2 = Except.error (MError.mesonError
      ("Backend `" ++ "xcode" ++ "` is not yet supported by `compile`. Use generated project files directly instead."))
    ∧ spawnedCmds (run optDefault envXcode).1 = [] :=
  C8_unsupported_backend optDefault envXcode "xcode" rfl rfl rfl (by decide) rfl

/-- C9: on a `vs*` backend any nonzero loadAverage emits the warning, the
run still proceeds to spawn and succeed, and the synthesized argument
vector does not depend on the loadAverage value (it is a function of jobs
and clean alone). -/
theorem C9_vs_load_average (o : CompileOptions) (env : Env) (b sln : String)
    (hex : env.bdirExists = true) (hdir : env.bdirIsDir = true)
    (hb : (get_backend_from_introspect env).2 = Except.ok b)
    (hvs : startswith b "vs" = true)
    (hsln : env.slns = [sln]) (hla : o.load_average ≠ 0) :
    Event.warning "Msbuild does not have a load-average switch, ignoring." ∈ (run o env).1
    ∧ (run o env).2 = Except.ok (env.spawnReturn (vs_cmd (env.resolvePath sln) o))
    ∧ ∀ o' : CompileOptions, o'.jobs = o.jobs → o'.clean = o.clean →
        vs_cmd (env.resolvePath sln) o' = vs_cmd (env.resolvePath sln) o := by
  refine ⟨?_, ?_, ?_⟩
  · rw [run_vs_eq o env b sln hex hdir hb hvs hsln, if_pos hla]
    simp
  · rw [run_vs_eq o env b sln hex hdir hb hvs hsln]
  · intro o' hj hc
    unfold vs_cmd
    rw [hj, hc]

/-- C9 witness: `load_average = 3` on a vs2019 tree. -/
theorem C9_vs_load_average_witness :
    Event.warning "Msbuild does not have a load-average switch, ignoring."
      ∈ (run optFull envVs).1
    ∧ (run optFull envVs).2 =
        Except.ok (envVs.spawnReturn (vs_cmd (envVs.resolvePath "proj.sln") optFull))
    ∧ ∀ o' : CompileOptions, o'.jobs = optFull.jobs → o'.clean = optFull.clean →
        vs_cmd (envVs.resolvePath "proj.sln") o' = vs_cmd (envVs.resolvePath "proj.sln") optFull :=
  C9_vs_load_average optFull envVs "vs2019" "proj.sln" rfl rfl rfl rfl rfl (by decide)

/-- C2 counterexample: with `NINJA` set to the empty string and neither
`ninja` nor `samu` on the search path, no runner resolves in the claim's
sense, yet the run does not fail with the driver-not-found error: it
succeeds, spawning the empty string as the runner executable. -/
theorem C2_counterexample :
    (run optDefault envNinjaEmptyVar).2 = Except.ok 0
    ∧ (run optDefault envNinjaEmptyVar).2 ≠
        Except.error (MError.mesonError "Cannot find either ninja or samu.")
    ∧ spawnedCmds (run optDefault envNinjaEmptyVar).1 = [["", "-C", "/work/build"]] := by
  refine ⟨rfl, ?_, rfl⟩
  intro h
  rw [show (run optDefault envNinjaEmptyVar).2 = Except.ok 0 from rfl] at h
  simp at h

/-- C2 (amended): for backend `ninja` the runner resolution order is: a
set, non-empty `NINJA` value is used unconditionally; otherwise `ninja`
when found on the search path; otherwise `samu` when found; when `NINJA`
is unset and neither is found, the run fails with the driver-not-found
error. When `NINJA` is set to the empty string and neither is found, the
empty string itself remains the runner and no error is raised (the source
checks `runner is None`, which the falsy empty string passes). On every
successful resolution an informational message naming the chosen runner is
logged. -/
theorem C2_runner_resolution (o : CompileOptions) (env : Env)
    (hex : env.bdirExists = true) (hdir : env.bdirIsDir = true)
    (hb : (get_backend_from_introspect env).2 = Except.ok "ninja") :
    (∀ v, env.ninjaEnvVar = some v → v ≠ "" → resolve_runner env = some v)
    ∧ ((env.ninjaEnvVar = none ∨ env.ninjaEnvVar = some "") → env.whichNinja = true →
        resolve_runner env = some "ninja")
    ∧ ((env.ninjaEnvVar = none ∨ env.ninjaEnvVar = some "") → env.whichNinja = false →
        env.whichSamu = true → resolve_runner env = some "samu")
    ∧ (env.ninjaEnvVar = none → env.whichNinja = false → env.whichSamu = false →
        run o env = ((get_backend_from_introspect env).1,
          Except.error (MError.mesonError "Cannot find either ninja or samu.")))
    ∧ (env.ninjaEnvVar = some "" → env.whichNinja = false → env.whichSamu = false →
        resolve_runner env = some "")
    ∧ (∀ r, resolve_runner env = some r →
        Event.logMsg ("Found runner: " ++ r) ∈ (run o env).1
        ∧ (run o env).2 = Except.ok (env.spawnReturn (ninja_cmd r env.bdirPosix o))) := by
  refine ⟨?_, ?_, ?_, ?_, ?_, ?_⟩
  · intro v hv hne
    unfold resolve_runner
    rw [hv]
    simp [pyTruthy, hne]
  · rintro (hv | hv) hwn <;> unfold resolve_runner <;> rw [hv, hwn] <;>
      simp [pyTruthy]
  · rintro (hv | hv) hwn hws <;> unfold resolve_runner <;> rw [hv, hwn, hws] <;>
      simp [pyTruthy]
  · intro hv hwn hws
    have hr : resolve_runner env = none := by
      unfold resolve_runner
      rw [hv, hwn, hws]
      simp [pyTruthy]
    exact run_ninja_no_runner_eq o env hex hdir hb hr
  · intro hv hwn hws
    unfold resolve_runner
    rw [hv, hwn, hws]
    simp [pyTruthy]
  · intro r hr
    constructor
    · rw [run_ninja_eq o env r hex hdir hb hr]
      simp
    · rw [run_ninja_eq o env r hex hdir hb hr]

/-- C2 witness: a non-empty `NINJA` override wins even though `ninja` is
on the path, and the choice is logged. -/
theorem C2_runner_resolution_witness :
    resolve_runner envNinjaOverride = some "custom-runner"
    ∧ Event.logMsg ("Found runner: " ++ "custom-runner")
        ∈ (run optDefault envNinjaOverride).1 := by
  obtain ⟨h1, h2, h3, h4, h5, h6⟩ :=
    C2_runner_resolution optDefault envNinjaOverride rfl rfl rfl
  have hr := h1 "custom-runner" rfl (by decide)
  exact ⟨hr, (h6 "custom-runner" hr).1⟩

/-- C3 counterexample: with the clean flag set (and `jobs = 0`), the
IDE-family vector ends with the clean target `/t:Clean`, not with the
parallelism flag `-m`, so the claim fails for clean invocations. -/
theorem C3_counterexample :
    spawnedCmds (run optClean envVs).1 =
      [["msbuild", "/work/build/proj.sln", "-m", "/t:Clean"]]
    ∧ (["msbuild", "/work/build/proj.sln", "-m", "/t:Clean"] : List String).getLast? =
        some "/t:Clean"
    ∧ ("/t:Clean" : String) ≠ "-m" :=
  ⟨rfl, rfl, by decide⟩

/-- C3 (amended): on the IDE-project family the parallelism flag is the
element right after `[msbuild, solutionPath]`: bare `-m` when `jobs ≤ 0`
and `-m<jobs>` (attached, no separating space) when `jobs > 0`; whenever
the clean flag is unset, that flag is also the final element of the
argument vector. -/
theorem C3_vs_parallel_flag (o : CompileOptions) (env : Env) (b sln : String)
    (hex : env.bdirExists = true) (hdir : env.bdirIsDir = true)
    (hb : (get_backend_from_introspect env).2 = Except.ok b)
    (hvs : startswith b "vs" = true)
    (hsln : env.slns = [sln]) :
    spawnedCmds (run o env).1 = [vs_cmd (env.resolvePath sln) o]
    ∧ (vs_cmd (env.resolvePath sln) o).get? 2 =
        some (if 0 < o.jobs then "-m" ++ toString o.jobs else "-m")
    ∧ (o.clean = false →
        (vs_cmd (env.resolvePath sln) o).getLast? =
          some (if 0 < o.jobs then "-m" ++ toString o.jobs else "-m")) := by
  refine ⟨spawnedCmds_run_vs o env b sln hex hdir hb hvs hsln, ?_, ?_⟩
  · unfold vs_cmd
    by_cases hj : 0 < o.jobs <;> by_cases hc : o.clean <;> simp [hj, hc]
  · intro hc
    unfold vs_cmd
    rw [hc]
    by_cases hj : 0 < o.jobs <;> simp [hj]

/-- C3 witness: default options (`jobs = 0`, clean unset) on a vs2019
tree: the vector ends with bare `-m`. -/
theorem C3_vs_parallel_flag_witness :
    spawnedCmds (run optDefault envVs).1 = [vs_cmd (envVs.resolvePath "proj.sln") optDefault]
    ∧ (vs_cmd (envVs.resolvePath "proj.sln") optDefault).get? 2 =
        some (if 0 < optDefault.jobs then "-m" ++ toString optDefault.jobs else "-m")
    ∧ (optDefault.clean = false →
        (vs_cmd (envVs.resolvePath "proj.sln") optDefault).getLast? =
          some (if 0 < optDefault.jobs then "-m" ++ toString optDefault.jobs else "-m")) :=
  C3_vs_parallel_flag optDefault envVs "vs2019" "proj.sln" rfl rfl rfl rfl rfl

/-- Lemma: `run` fails immediately when the build directory does not exist. -/
theorem run_nodir_eq (o : CompileOptions) (env : Env)
    (hex : env.bdirExists = false) :
    run o env = ([], Except.error (MError.mesonError
      ("Path to builddir " ++ env.bdirResolved ++ " does not exist!"))) := by
  unfold run
  rw [hex]
  rfl

/-- Lemma: `run` fails immediately when the build directory is not a directory. -/
theorem run_notadir_eq (o : CompileOptions) (env : Env)
    (hex : env.bdirExists = true) (hdir : env.bdirIsDir = false) :
    run o env = ([], Except.error (MError.mesonError
      "builddir path should be a directory.")) := by
  unfold run
  rw [hex, hdir]
  rfl

/-- Appending after a string that decomposes as `c :: tp` decomposes the
same way. -/
theorem data_append_cons (p : String) (c : Char) (tp : List Char) (x : String)
    (hp : p.data = c :: tp) : (p ++ x).data = c :: (tp ++ x.data) := by
  rw [String.data_append, hp]
  rfl

/-- The driver-not-found error is raised only when the runner resolution
produced nothing: with any resolved runner, `run` can never return it. -/
theorem driver_not_found_needs_no_runner (o : CompileOptions) (env : Env)
    (hrr : resolve_runner env ≠ none) :
    (run o env).2 ≠ Except.error (MError.mesonError "Cannot find either ninja or samu.") := by
  rcases hex : env.bdirExists with _ | _
  · rw [run_nodir_eq o env hex]
    intro heq
    have heq' : (Except.error (MError.mesonError
        ("Path to builddir " ++ env.bdirResolved ++ " does not exist!")) : Except MError Int) =
        Except.error (MError.mesonError "Cannot find either ninja or samu.") := heq
    injection heq' with h1
    injection h1 with h2
    exact append_ne_of_data_head ("Path to builddir " ++ env.bdirResolved)
      " does not exist!" "Cannot find either ninja or samu." 'P' 'C'
      ("ath to builddir ".data ++ env.bdirResolved.data)
      "annot find either ninja or samu.".data
      (data_append_cons "Path to builddir " 'P' "ath to builddir ".data
        env.bdirResolved (by decide))
      (by decide) (by decide) h2
  · rcases hdir : env.bdirIsDir with _ | _
    · rw [run_notadir_eq o env hex hdir]
      intro heq
      have heq' : (Except.error (MError.mesonError
          "builddir path should be a directory.") : Except MError Int) =
          Except.error (MError.mesonError "Cannot find either ninja or samu.") := heq
      injection heq' with h1
      exact absurd h1 (by decide)
    · rcases hgb : (get_backend_from_introspect env).2 with e | b
      · rw [run_reader_error_eq o env e hex hdir hgb]
        intro heq
        have heq' : (Except.error e : Except MError Int) =
            Except.error (MError.mesonError "Cannot find either ninja or samu.") := heq
        injection heq' with h1
        rcases get_backend_error_cases env e hgb with h | h | h <;> subst h <;>
          exact absurd h1 (by decide)
      · by_cases hn : b = "ninja"
        · subst hn
          rcases hre : resolve_runner env with _ | r
          · exact absurd hre hrr
          · rw [run_ninja_eq o env r hex hdir hgb hre]
            intro heq
            have heq' : (Except.ok (env.spawnReturn (ninja_cmd r env.bdirPosix o)) :
                Except MError Int) =
                Except.error (MError.mesonError "Cannot find either ninja or samu.") := heq
            exact Except.noConfusion heq'
        · by_cases hvs : startswith b "vs" = true
          · rcases hs : env.slns with _ | ⟨a, _ | ⟨c, l⟩⟩
            · rw [run_vs_assert_eq o env b hex hdir hgb hvs (by simp [hs])]
              intro heq
              have heq' : (Except.error (MError.assertionError
                  "More than one solution in a project?") : Except MError Int) =
                  Except.error (MError.mesonError "Cannot find either ninja or samu.") := heq
              injection heq' with h1
              exact absurd h1 (by decide)
            · rw [run_vs_eq o env b a hex hdir hgb hvs hs]
              intro heq
              have heq' : (Except.ok (env.spawnReturn (vs_cmd (env.resolvePath a) o)) :
                  Except MError Int) =
                  Except.error (MError.mesonError "Cannot find either ninja or samu.") := heq
              exact Except.noConfusion heq'
            · rw [run_vs_assert_eq o env b hex hdir hgb hvs (by simp [hs])]
              intro heq
              have heq' : (Except.error (MError.assertionError
                  "More than one solution in a project?") : Except MError Int) =
                  Except.error (MError.mesonError "Cannot find either ninja or samu.") := heq
              injection heq' with h1
              exact absurd h1 (by decide)
          · have hvs' : startswith b "vs" = false := by
              rcases hh : startswith b "vs" with _ | _
              · rfl
              · exact absurd hh hvs
            rw [run_unsupported_eq o env b hex hdir hgb hn hvs']
            intro heq
            have heq' : (Except.error (MError.mesonError
                ("Backend `" ++ b ++ "` is not yet supported by `compile`. Use generated project files directly instead.")) :
                Except MError Int) =
                Except.error (MError.mesonError "Cannot find either ninja or samu.") := heq
            injection heq' with h1
            injection h1 with h2
            exact append_ne_of_data_head ("Backend `" ++ b)
              "` is not yet supported by `compile`. Use generated project files directly instead."
              "Cannot find either ninja or samu." 'B' 'C'
              ("ackend `".data ++ b.data)
              "annot find either ninja or samu.".data
              (data_append_cons "Backend `" 'B' "ackend `".data b (by decide))
              (by decide) (by decide) h2

/-- C10: when `NINJA` is set to any non-empty string its value becomes
the runner with no validation: resolution is independent of every other
part of the environment (the path probes in particular are never
consulted), the driver-not-found error is unreachable, and the unvalidated
value surfaces only at spawn time, as the head of the spawned command. -/
theorem C10_ninja_env_override (o : CompileOptions) (env : Env) (v : String)
    (hv : env.ninjaEnvVar = some v) (hne : v ≠ "") :
    resolve_runner env = some v
    ∧ (∀ env' : Env, env'.ninjaEnvVar = some v → resolve_runner env' = some v)
    ∧ (run o env).2 ≠ Except.error (MError.mesonError "Cannot find either ninja or samu.")
    ∧ (env.bdirExists = true → env.bdirIsDir = true →
        (get_backend_from_introspect env).2 = Except.ok "ninja" →
        spawnedCmds (run o env).1 = [ninja_cmd v env.bdirPosix o]
        ∧ (ninja_cmd v env.bdirPosix o).head? = some v) := by
  have hres : ∀ env' : Env, env'.ninjaEnvVar = some v → resolve_runner env' = some v := by
    intro env' hv'
    unfold resolve_runner
    rw [hv']
    simp [pyTruthy, hne]
  refine ⟨hres env hv, hres, ?_, ?_⟩
  · exact driver_not_found_needs_no_runner o env (by rw [hres env hv]; simp)
  · intro hex hdir hb
    refine ⟨spawnedCmds_run_ninja o env v hex hdir hb (hres env hv), ?_⟩
    unfold ninja_cmd
    by_cases hj : 0 < o.jobs <;> by_cases hl : 0 < o.load_average <;>
      by_cases hc : o.clean <;> simp [hj, hl, hc]

/-- C10 witness: `NINJA=custom-runner` with `ninja` also on the path: the
override is the runner and heads the spawned command. -/
theorem C10_ninja_env_override_witness :
    resolve_runner envNinjaOverride = some "custom-runner"
    ∧ spawnedCmds (run optDefault envNinjaOverride).1 =
        [ninja_cmd "custom-runner" envNinjaOverride.bdirPosix optDefault]
    ∧ (ninja_cmd "custom-runner" envNinjaOverride.bdirPosix optDefault).head? =
        some "custom-runner" := by
  obtain ⟨h1, h2, h3, h4⟩ :=
    C10_ninja_env_override optDefault envNinjaOverride "custom-runner" rfl (by decide)
  obtain ⟨h5, h6⟩ := h4 rfl rfl rfl
  exact ⟨h1, h5, h6⟩

end Mcompile
